import Mathlib

/-!
Verification development for the `mmworkbench` dialogue component
(`src/mmworkbench/components/dialogue.py`): a shallow embedding of the
rule-based dialogue-state engine (`DialogueStateRule`, `DialogueManager`,
`DialogueResponder`) and the `Conversation` driver, with theorems settling
the specification claims.
-/

/-- A dynamically typed Python value, as far as the dialogue module
inspects values: `None`, booleans, integers, strings, lists and
string-keyed dicts.  Dicts are association lists read by first match. -/
inductive PyVal where
  | none : PyVal
  | bool : Bool → PyVal
  | int : Int → PyVal
  | str : String → PyVal
  | list : List PyVal → PyVal
  | dict : List (String × PyVal) → PyVal

/-- Python truthiness (`if x:`) for the values above. -/
def PyVal.truthy : PyVal → Bool
  | .none => false
  | .bool b => b
  | .int n => n != 0
  | .str s => s != ""
  | .list xs => !xs.isEmpty
  | .dict es => !es.isEmpty

/-- `isinstance(x, list)`. -/
def PyVal.isList : PyVal → Bool
  | .list _ => true
  | _ => false

/-- `isinstance(x, str)`. -/
def PyVal.isStr : PyVal → Bool
  | .str _ => true
  | _ => false

/-- Dict lookup, first matching key (Python dict keys are unique). -/
def dictGet (es : List (String × PyVal)) (k : String) : Option PyVal :=
  (es.find? (fun e => e.1 == k)).map (fun e => e.2)

/-- Escape apostrophes, as CPython `repr` does inside a
single-quoted string literal. -/
def escapeQuote : List Char → List Char
  | [] => []
  | c :: rest => if c = '\'' then '\\' :: '\'' :: escapeQuote rest else c :: escapeQuote rest

/-- Model of CPython `repr` on strings: quotes with an apostrophe unless the
string holds an apostrophe and no double quote; apostrophes are escaped in
the single-quoted form.  (Escapes of control characters are elided; no
claim exercises them.) -/
def pyReprStr (s : String) : String :=
  if s.data.contains '\'' && !s.data.contains '"' then "\"" ++ s ++ "\""
  else "'" ++ String.mk (escapeQuote s.data) ++ "'"

mutual

/-- Model of CPython `repr` on the embedded values. -/
def pyRepr : PyVal → String
  | .none => "None"
  | .bool b => if b then "True" else "False"
  | .int n => toString n
  | .str s => pyReprStr s
  | .list xs => "[" ++ pyReprList xs ++ "]"
  | .dict es => "\x7b" ++ pyReprDict es ++ "\x7d"

def pyReprList : List PyVal → String
  | [] => ""
  | [x] => pyRepr x
  | x :: y :: rest => pyRepr x ++ ", " ++ pyReprList (y :: rest)

def pyReprDict : List (String × PyVal) → String
  | [] => ""
  | [e] => pyReprStr e.1 ++ ": " ++ pyRepr e.2
  | e :: f :: rest => pyReprStr e.1 ++ ": " ++ pyRepr e.2 ++ ", " ++ pyReprDict (f :: rest)

end

/-- Model of CPython `str` on the embedded values (`str` and `repr` agree on
every embedded type except strings themselves). -/
def PyVal.pyStr : PyVal → String
  | .str s => s
  | v => pyRepr v

example : pyRepr (.dict [("name", .str "show-suggestions"), ("message", .list [])]) =
    "\x7b'name': 'show-suggestions', 'message': []\x7d" := by rfl

example : PyVal.truthy (.int 0) = false := by rfl

/-! ## Rules (`DialogueStateRule`) -/

/-- The client-action name constants of the module. -/
def SHOW_REPLY : String := "show-reply"

def SHOW_PROMPT : String := "show-prompt"

def SHOW_SUGGESTIONS : String := "show-suggestions"

def SHOW_COLLECTION : String := "show-collection"

/-- An extracted entity; rule matching reads only its `type` field. -/
structure Entity where
  type : String
deriving DecidableEq

/-- A request context (`domain`, `intent`, `entities` keys read by
`DialogueStateRule.apply`). -/
structure Context where
  domain : String
  intent : String
  entities : List Entity
deriving DecidableEq

/-- A dialogue state rule: named state plus optional domain, intent and
entity-type constraints (`entity_types` is the normalized frozenset). -/
structure DialogueStateRule where
  dialogue_state : String
  domain : Option String
  intent : Option String
  entity_types : Option (Finset String)
deriving DecidableEq

/-- Python truthiness of an optional string attribute (`None` and `''` are
falsy). -/
def pyTruthyOptStr : Option String → Bool
  | Option.none => false
  | some s => s != ""

/-- The entity-type set of a context, as built by the loop in
`DialogueStateRule.apply` (`entity_types.add(entity['type'])`). -/
def contextEntityTypes (ctx : Context) : Finset String :=
  (ctx.entities.map Entity.type).toFinset

/-- `DialogueStateRule.apply`: domain and intent must be equal when
constrained; the entity-type constraint fails when
`len(self.entity_types & entity_types) < len(self.entity_types)`. -/
def DialogueStateRule.apply (r : DialogueStateRule) (ctx : Context) : Bool :=
  if r.domain.isSome && r.domain != some ctx.domain then false
  else if r.intent.isSome && r.intent != some ctx.intent then false
  else
    match r.entity_types with
    | Option.none => true
    | some ets =>
      if (ets ∩ contextEntityTypes ctx).card < ets.card then false else true

/-- `DialogueStateRule.complexity`: the `[domainFlag, intentFlag,
entityTypeCount]` triple; each slot is set only when the attribute is
truthy (an empty set leaves slot 2 at `0`, which equals its size). -/
def DialogueStateRule.complexity (r : DialogueStateRule) : Nat × Nat × Nat :=
  ( if pyTruthyOptStr r.domain then 1 else 0
  , if pyTruthyOptStr r.intent then 1 else 0
  , match r.entity_types with
    | Option.none => 0
    | some ets => if ets = ∅ then 0 else ets.card )

/-- `DialogueStateRule.compare`: walks the complexity tuples from the last
index (entity-type count) down to the first (domain flag) and returns the
first nonzero difference, else `0`. -/
def DialogueStateRule.compare (a b : DialogueStateRule) : Int :=
  let ac := a.complexity
  let bc := b.complexity
  if ac.2.2 ≠ bc.2.2 then (ac.2.2 : Int) - (bc.2.2 : Int)
  else if ac.2.1 ≠ bc.2.1 then (ac.2.1 : Int) - (bc.2.1 : Int)
  else if ac.1 ≠ bc.1 then (ac.1 : Int) - (bc.1 : Int)
  else 0

/-! ## The manager (`DialogueManager`) -/

/-- Handlers are opaque callables; only their identity matters
(`old_handler != handler`), so they are modelled by a tag. -/
abbrev Handler := Nat

/-- Insert a rule into a list that is already sorted in descending
`compare` order, after every element comparing greater or equal.  This is
the effect of `self.rules.sort(key=cmp_to_key(compare), reverse=True)`
after `self.rules.append(rule)`: Python's sort is stable, so the appended
element ends up behind all earlier elements that do not compare strictly
below it. -/
def insertRuleSorted : List DialogueStateRule → DialogueStateRule → List DialogueStateRule
  | [], r => [r]
  | x :: xs, r =>
    if 0 ≤ DialogueStateRule.compare x r then x :: insertRuleSorted xs r
    else r :: x :: xs

/-- Stable descending sort by `DialogueStateRule.compare` (model of
`list.sort(key=cmp_to_key(DialogueStateRule.compare), reverse=True)`). -/
def sortRules (rs : List DialogueStateRule) : List DialogueStateRule :=
  rs.foldl insertRuleSorted []

/-- Update a handler map entry (Python dict assignment). -/
def insertHandler : List (String × Handler) → String → Handler → List (String × Handler)
  | [], name, h => [(name, h)]
  | (k, v) :: rest, name, h =>
    if k = name then (k, h) :: rest else (k, v) :: insertHandler rest name h

/-- The dialogue manager: a handler map and the sorted rule list. -/
structure DialogueManager where
  handler_map : List (String × Handler)
  rules : List DialogueStateRule
deriving DecidableEq

/-- A fresh manager (`__init__`). -/
def DialogueManager.empty : DialogueManager := ⟨[], []⟩

/-- `self.handler_map.get(name)`. -/
def DialogueManager.lookupHandler (m : DialogueManager) (name : String) : Option Handler :=
  (m.handler_map.find? (fun e => e.1 == name)).map (fun e => e.2)

/-- `DialogueManager.add_dialogue_rule`: build the rule, append and
re-sort; with a non-`None` handler, raise an `AssertionError` when a
*different* handler is already bound to `name`, otherwise bind it.  A
`None` handler binds nothing. -/
def DialogueManager.add_dialogue_rule (m : DialogueManager) (name : String)
    (handler : Option Handler) (domain intent : Option String)
    (entity_types : Option (Finset String)) : Except String DialogueManager :=
  let rule : DialogueStateRule := ⟨name, domain, intent, entity_types⟩
  let rules := sortRules (m.rules ++ [rule])
  match handler with
  | Option.none => .ok { m with rules := rules }
  | some h =>
    match m.lookupHandler name with
    | some old =>
      if old ≠ h then
        .error ("Handler mapping is overwriting an existing dialogue state: " ++ name)
      else .ok { handler_map := insertHandler m.handler_map name h, rules := rules }
    | Option.none => .ok { handler_map := insertHandler m.handler_map name h, rules := rules }

/-- The rule-scanning loop of `DialogueManager.apply_handler`: with a
truthy `target_dialog_state` the first rule bearing that name wins without
its predicate being evaluated; otherwise the first rule whose `apply`
holds wins. -/
def resolveState (rules : List DialogueStateRule) (ctx : Context)
    (target : Option String) : Option String :=
  match rules with
  | [] => Option.none
  | r :: rest =>
    if pyTruthyOptStr target then
      if target = some r.dialogue_state then some r.dialogue_state
      else resolveState rest ctx target
    else
      if r.apply ctx then some r.dialogue_state
      else resolveState rest ctx target

/-- Python exception kinds raised by the code paths modelled here. -/
inductive PyErr where
  | keyError : PyErr
  | valueError : PyErr
  | typeError : PyErr
  | attributeError : PyErr
deriving DecidableEq

/-- The value returned by `apply_handler`: the resolved state (or `None`)
and the responder's accumulated client actions. -/
structure HandlerResult where
  dialogue_state : Option String
  client_actions : List PyVal

/-- `DialogueManager.apply_handler`: resolve the state; with no state the
default no-op handler leaves the fresh responder empty; with a state the
handler is fetched by `self.handler_map[dialogue_state]`, an unguarded
lookup that raises `KeyError` when the name is unbound.  `run h ctx`
abstracts invoking handler `h` on a fresh responder and collecting its
`client_actions`. -/
def DialogueManager.apply_handler (m : DialogueManager) (ctx : Context)
    (target : Option String) (run : Handler → Context → List PyVal) :
    Except PyErr HandlerResult :=
  match resolveState m.rules ctx target with
  | Option.none => .ok ⟨Option.none, []⟩
  | some ds =>
    match m.lookupHandler ds with
    | Option.none => .error .keyError
    | some h => .ok ⟨some ds, run h ctx⟩

/-! ## The responder (`DialogueResponder`) -/

/-- The dialogue responder: slot values and the accumulated client
actions. -/
structure DialogueResponder where
  slots : List (String × PyVal)
  client_actions : List PyVal

/-- `DialogueResponder.respond`: append an arbitrary action. -/
def DialogueResponder.respond (r : DialogueResponder) (action : PyVal) : DialogueResponder :=
  { r with client_actions := r.client_actions ++ [action] }

/-- `DialogueResponder.show`: `collection = things or []`, then a
`show-collection` action is appended. -/
def DialogueResponder.show (r : DialogueResponder) (things : PyVal) : DialogueResponder :=
  let collection := if things.truthy then things else .list []
  r.respond (.dict [("name", .str SHOW_COLLECTION), ("message", collection)])

/-- Modelled Python call semantics for `show` invoked with no argument:
the source declares `def show(self, things):` with a required positional
parameter and no default, so the call raises `TypeError` before the body
runs. -/
def DialogueResponder.showWithNoArgument (_ : DialogueResponder) :
    Except PyErr DialogueResponder :=
  .error .typeError

/-- `DialogueResponder.suggest`: `suggestions = suggestions or []` (the
parameter defaults to `None`), then a `show-suggestions` action is
appended. -/
def DialogueResponder.suggest (r : DialogueResponder) (suggestions : PyVal) : DialogueResponder :=
  let suggestions := if suggestions.truthy then suggestions else .list []
  r.respond (.dict [("name", .str SHOW_SUGGESTIONS), ("message", suggestions)])

/-! ## Action rendering (`Conversation._handle_client_action`) -/

/-- `' '.join(pieces)`: every piece must be a string, else `TypeError`. -/
def joinStrPieces : List PyVal → Except PyErr String
  | [] => .ok ""
  | [.str s] => .ok s
  | .str s :: p :: rest => do
    let t ← joinStrPieces (p :: rest)
    .ok (s ++ " " ++ t)
  | _ => .error .typeError

/-- `Conversation._generate_suggestion_text`: collect the `text` field if
present, append `'({})'.format(suggestion['type'])` unless the type equals
the string `'text'`, and join with spaces.  A missing `type` key raises
`KeyError`; a non-dict suggestion raises `TypeError` (either at the
`'text' in suggestion` membership test or at the `suggestion['type']`
subscript). -/
def generate_suggestion_text (s : PyVal) : Except PyErr String :=
  match s with
  | .dict es =>
    let pieces : List PyVal :=
      match dictGet es "text" with
      | some v => [v]
      | Option.none => []
    (match dictGet es "type" with
     | Option.none => .error .keyError
     | some t =>
       let appendType : Bool :=
         match t with
         | .str ty => ty != "text"
         | _ => true
       joinStrPieces (if appendType then pieces ++ [.str ("(" ++ t.pyStr ++ ")")] else pieces))
  | _ => .error .typeError

/-- The suggestion loop of the `show-suggestions` branch, with the
`.format(*texts)` phase fused in: iteration `idx` contributes
`' {!r}'`/`', {!r}'` filled with the repr of that suggestion's generated
text.  (In the source the format string is built first and filled after
the loop; the fusion preserves both the produced string and the exception
behaviour, since `_generate_suggestion_text` is called once per iteration
in the same order.) -/
def suggestionLoop : List PyVal → Nat → Except PyErr String
  | [], _ => .ok ""
  | s :: rest, idx =>
    match generate_suggestion_text s with
    | .error e => .error e
    | .ok t =>
      match suggestionLoop rest (idx + 1) with
      | .error e => .error e
      | .ok tail => .ok ((if 0 < idx then ", " else " ") ++ pyReprStr t ++ tail)

/-- `'\n'.join`. -/
def joinLines : List String → String
  | [] => ""
  | [s] => s
  | s :: t :: rest => s ++ "\n" ++ joinLines (t :: rest)

mutual

/-- Model of `json.dumps(item, indent=4, sort_keys=True)` restricted to
what the claims observe: total on the embedded values (every `PyVal` is
serializable).  The indentation layout and key sorting of the rendered
text are elided — no claim inspects the rendered collection text. -/
def pyJsonDumps : PyVal → String
  | .none => "null"
  | .bool b => if b then "true" else "false"
  | .int n => toString n
  | .str s => "\"" ++ s ++ "\""
  | .list xs => "[" ++ pyJsonList xs ++ "]"
  | .dict es => "\x7b" ++ pyJsonDict es ++ "\x7d"

def pyJsonList : List PyVal → String
  | [] => ""
  | [x] => pyJsonDumps x
  | x :: y :: rest => pyJsonDumps x ++ ", " ++ pyJsonList (y :: rest)

def pyJsonDict : List (String × PyVal) → String
  | [] => ""
  | [e] => "\"" ++ e.1 ++ "\": " ++ pyJsonDumps e.2
  | e :: f :: rest => "\"" ++ e.1 ++ "\": " ++ pyJsonDumps e.2 ++ ", " ++ pyJsonDict (f :: rest)

end

/-- The `try` body of `Conversation._handle_client_action`, as a value or
the Python exception it raises.

* non-dict action: `action['name']` raises `TypeError`;
* missing `name` key: `KeyError`;
* `show-reply`/`show-prompt`: `action['message']['text']` (`KeyError` for a
  missing key, `TypeError` for a non-dict `message`);
* `show-suggestions`: an empty `message` raises `ValueError`; iterating a
  non-empty string or dict reaches a non-dict suggestion and raises
  `TypeError`; a `message` without `len` raises `TypeError`;
* `show-collection`: each item of an iterable `message` is serialized
  (iterating a string yields its characters, a dict its keys);
* a `name` holding an unhashable value (a list or a dict): the first test
  `action['name'] in set((SHOW_REPLY, SHOW_PROMPT))` raises
  `TypeError: unhashable type`;
* any other `name` (a hashable non-matching value, or an unrecognized
  string) fails every branch test and leaves `msg` at the initial `''`. -/
def handle_client_action_core (action : PyVal) : Except PyErr PyVal :=
  match action with
  | .dict es =>
    (match dictGet es "name" with
     | Option.none => .error .keyError
     | some nm =>
       match nm with
       | .str name =>
         if name == SHOW_REPLY || name == SHOW_PROMPT then
           match dictGet es "message" with
           | Option.none => .error .keyError
           | some (.dict mes) =>
             (match dictGet mes "text" with
              | Option.none => .error .keyError
              | some v => .ok v)
           | some _ => .error .typeError
         else if name == SHOW_SUGGESTIONS then
           match dictGet es "message" with
           | Option.none => .error .keyError
           | some (.list suggestions) =>
             if suggestions.isEmpty then .error .valueError
             else
               match suggestionLoop suggestions 0 with
               | .error e => .error e
               | .ok body =>
                 .ok (.str ("Suggestion" ++ (if suggestions.length == 1 then "" else "s")
                             ++ ":" ++ body))
           | some (.str s) => if s == "" then .error .valueError else .error .typeError
           | some (.dict mes) => if mes.isEmpty then .error .valueError else .error .typeError
           | some _ => .error .typeError
         else if name == SHOW_COLLECTION then
           match dictGet es "message" with
           | Option.none => .error .keyError
           | some (.list items) => .ok (.str (joinLines (items.map pyJsonDumps)))
           | some (.str s) =>
             .ok (.str (joinLines (s.data.map (fun c => pyJsonDumps (.str (String.mk [c]))))))
           | some (.dict mes) =>
             .ok (.str (joinLines (mes.map (fun e => pyJsonDumps (.str e.1)))))
           | some _ => .error .typeError
         else .ok (.str "")
       | .list _ => .error .typeError
       | .dict _ => .error .typeError
       | _ => .ok (.str ""))
  | _ => .error .typeError

/-- `Conversation._handle_client_action`: the `except (KeyError,
ValueError, AttributeError)` clause turns exactly those exceptions into
the `'Unsupported response: {!r}'` fallback string; a `TypeError`
propagates to the caller. -/
def handle_client_action (action : PyVal) : Except PyErr PyVal :=
  match handle_client_action_core action with
  | .ok v => .ok v
  | .error .keyError => .ok (.str ("Unsupported response: " ++ pyRepr action))
  | .error .valueError => .ok (.str ("Unsupported response: " ++ pyRepr action))
  | .error .attributeError => .ok (.str ("Unsupported response: " ++ pyRepr action))
  | .error .typeError => .error .typeError

/-- The list comprehension
`[self._handle_client_action(a) for a in response['client_actions']]`:
an uncaught exception from one action aborts the whole comprehension. -/
def renderClientActions : List PyVal → Except PyErr (List PyVal)
  | [] => .ok []
  | a :: rest =>
    match handle_client_action a with
    | .error e => .error e
    | .ok v =>
      match renderClientActions rest with
      | .error e => .error e
      | .ok vs => .ok (v :: vs)

/-! ## The conversation driver (`Conversation`) -/

/-- What remains of a pipeline response dict once `say` has popped the
`history`, `allowed_intents` and `target_dialog_state` keys: the element
that ends up stored in the driver's history.  (The dict is inserted into
the history by reference before the pops, so the stored element carries
none of the popped keys.) -/
structure StoredResponse where
  frame : PyVal
  client_actions : List PyVal

/-- A response returned by `self._app_manager.parse(...)` — the external
pipeline is opaque, so the response is an arbitrary value of this shape.
`allowed_intents` / `target_dialog_state` model dict keys that may be
absent (`pop` with a `None` default); `history` is always present
(`response.pop('history')` would raise otherwise, which no claim
exercises). -/
structure PipelineResponse where
  history : List StoredResponse
  frame : PyVal
  allowed_intents : Option PyVal
  target_dialog_state : Option PyVal
  client_actions : List PyVal

/-- The turn state of a `Conversation` driver. -/
structure Conversation where
  session : PyVal
  history : List StoredResponse
  frame : PyVal
  allowed_intents : PyVal
  target_dialog_state : PyVal

/-- The post-extraction response stored into the history by `say`. -/
def storedOf (resp : PipelineResponse) : StoredResponse :=
  ⟨resp.frame, resp.client_actions⟩

/-- `Conversation.say`, given the pipeline's response for this turn:

1. `response.pop('history')` — the popped value is discarded;
2. `self.history.insert(0, response)` — the post-extraction response is
   prepended to the driver's existing history;
3. `self.frame = response['frame']`;
4. `allowed_intents` is popped and cleared (with a logged error) when it
   is truthy and not a `list`;
5. `target_dialog_state` is popped and cleared (with a logged error) when
   it is truthy and not a `str`;
6. the client actions are rendered (an uncaught rendering exception
   propagates after the state updates above have happened). -/
def Conversation.say (st : Conversation) (resp : PipelineResponse) :
    Conversation × Except PyErr (List PyVal) :=
  let history := storedOf resp :: st.history
  let frame := resp.frame
  let ai := resp.allowed_intents.getD PyVal.none
  let ai := if ai.truthy && !ai.isList then PyVal.none else ai
  let tds := resp.target_dialog_state.getD PyVal.none
  let tds := if tds.truthy && !tds.isStr then PyVal.none else tds
  ( { st with history := history, frame := frame,
              allowed_intents := ai, target_dialog_state := tds }
  , renderClientActions resp.client_actions )

/-- `Conversation.reset`: clears `history` and `frame` only. -/
def Conversation.reset (st : Conversation) : Conversation :=
  { st with history := [], frame := .dict [] }

/-! ## Statement-side definitions -/

/-- The entity-type count of a rule: `|entityTypes|`, `0` when unset. -/
def entityTypeCount (r : DialogueStateRule) : Nat :=
  match r.entity_types with
  | Option.none => 0
  | some ets => ets.card

/-- The rule's complexity read in the order `DialogueStateRule.compare`
consults it: `(entityTypeCount, intentFlag, domainFlag)`. -/
def priorityTriple (r : DialogueStateRule) : Nat × Nat × Nat :=
  (r.complexity.2.2, r.complexity.2.1, r.complexity.1)

/-- Strict lexicographic order on the priority triples, spelled out from
the specification's words: the first component is the primary key, the
last the weakest tie-break. -/
def lexGtTriple (p q : Nat × Nat × Nat) : Prop :=
  q.1 < p.1 ∨ (p.1 = q.1 ∧ (q.2.1 < p.2.1 ∨ (p.2.1 = q.2.1 ∧ q.2.2 < p.2.2)))

/-- Concatenation of a list of strings. -/
def joinStrings : List String → String
  | [] => ""
  | s :: rest => s ++ joinStrings rest

/-- The value `_handle_client_action` produces for one action when no
uncaught exception escapes it (the `.error` arm is unreachable under that
hypothesis). -/
def renderedAction (a : PyVal) : PyVal :=
  match handle_client_action a with
  | .ok v => v
  | .error _ => .str ""

/-- A well-formed suggestion dict `{'text': t, 'type': ty}`. -/
def mkSuggestion (t ty : String) : PyVal :=
  .dict [("text", .str t), ("type", .str ty)]

/-- A `show-suggestions` client action with the given payload. -/
def suggestionsAction (l : List PyVal) : PyVal :=
  .dict [("name", .str SHOW_SUGGESTIONS), ("message", .list l)]

/-- The description the specification prescribes for a suggestion with
text `t` and type `ty`: the text, with ` (ty)` appended exactly when the
type is not `"text"`. -/
def suggestionDescription (q : String × String) : String :=
  if q.2 = "text" then q.1 else q.1 ++ " " ++ "(" ++ q.2 ++ ")"

/-! ## Concrete fixtures for witnesses and counterexamples -/

/-- A rule constraining two entity types. -/
def c1RuleA : DialogueStateRule := ⟨"two_entities", Option.none, Option.none, some {"A", "B"}⟩

/-- A rule constraining one entity type. -/
def c1RuleB : DialogueStateRule := ⟨"one_entity", Option.none, Option.none, some {"A"}⟩

/-- A context carrying entities of both types. -/
def c1Ctx : Context := ⟨"store_info", "get_hours", [⟨"A"⟩, ⟨"B"⟩]⟩

/-- A rule requiring entity types `A` and `B`. -/
def c2Rule : DialogueStateRule := ⟨"both", Option.none, Option.none, some {"A", "B"}⟩

/-- A context with entity types `A`, `B` and the extra `C`. -/
def c2Ctx : Context := ⟨"d", "i", [⟨"A"⟩, ⟨"B"⟩, ⟨"C"⟩]⟩

/-- A rule named `X` whose domain constraint fails against `c3Ctx`. -/
def c3Rule : DialogueStateRule := ⟨"X", some "other_domain", Option.none, Option.none⟩

/-- A manager holding only `c3Rule`, with a handler bound to `X`. -/
def c3Mgr : DialogueManager := ⟨[("X", 7)], [c3Rule]⟩

/-- A context in a domain that `c3Rule` does not match. -/
def c3Ctx : Context := ⟨"d", "i", []⟩

/-- A manager with a handler already bound to the state `greet`. -/
def c4Mgr : DialogueManager := ⟨[("greet", 1)], []⟩

/-- A driver state holding one past turn in its history. -/
def c5St : Conversation := ⟨PyVal.none, [⟨PyVal.none, []⟩], PyVal.none, PyVal.none, PyVal.str ""⟩

/-- A pipeline response whose `history` field is the empty sequence. -/
def c5Resp : PipelineResponse := ⟨[], PyVal.none, Option.none, Option.none, []⟩

/-- A driver state with an empty history. -/
def c6St : Conversation := ⟨PyVal.none, [], PyVal.none, PyVal.none, PyVal.str ""⟩

/-- A pipeline response whose `allowed_intents` is the falsy non-sequence
`0`. -/
def c6Resp : PipelineResponse := ⟨[], PyVal.none, some (PyVal.int 0), Option.none, []⟩

/-- A pipeline response whose `allowed_intents` is a non-empty list. -/
def c6WResp : PipelineResponse :=
  ⟨[], PyVal.none, some (PyVal.list [PyVal.str "greet"]), some (PyVal.str "X"), []⟩

/-- A `show-reply` action whose `message` is mistyped (an integer):
`action['message']['text']` raises an uncaught `TypeError`. -/
def c7BadAction : PyVal := .dict [("name", .str "show-reply"), ("message", .int 5)]

/-- A well-formed `show-reply` action. -/
def c7ReplyAction : PyVal := .dict [("name", .str SHOW_REPLY), ("message", .dict [("text", .str "hi")])]

/-- An action with no `name` key: the lookup raises `KeyError`, which is
caught and turned into the fallback string. -/
def c7NoNameAction : PyVal := .dict [("message", .list [])]

/-- A fresh responder. -/
def c9Responder : DialogueResponder := ⟨[], []⟩

/-- A manager whose only rule was registered rule-only (`None` handler),
so its state name is absent from the handler map. -/
def c10Mgr : DialogueManager := ⟨[], [⟨"st", Option.none, Option.none, Option.none⟩]⟩

/-- An arbitrary context; `c10Mgr`'s rule has no constraints and matches
it. -/
def c10Ctx : Context := ⟨"d", "i", []⟩

/-! ## Helper lemmas -/

theorem inter_card_not_lt_iff {α : Type} [DecidableEq α] (s t : Finset α) :
    ¬((s ∩ t).card < s.card) ↔ s ⊆ t := by
  constructor
  · intro h
    have heq : s ∩ t = s :=
      Finset.eq_of_subset_of_card_le Finset.inter_subset_left (Nat.le_of_not_lt h)
    exact Finset.inter_eq_left.mp heq
  · intro h
    rw [Finset.inter_eq_left.mpr h]
    exact Nat.lt_irrefl _

theorem resolveState_target_found (l : List DialogueStateRule) (ctx : Context)
    (t : String) (ht : t ≠ "") (h : ∃ r ∈ l, r.dialogue_state = t) :
    resolveState l ctx (some t) = some t := by
  induction l with
  | nil => simp at h
  | cons r rest ih =>
    have htr : pyTruthyOptStr (some t) = true := by simp [pyTruthyOptStr, ht]
    simp only [resolveState, htr, if_true]
    by_cases hr : some t = some r.dialogue_state
    · rw [if_pos hr]
      exact (congrArg some (Option.some.inj hr)).symm
    · rw [if_neg hr]
      refine ih ?_
      rcases h with ⟨r', hr', hname⟩
      rcases List.mem_cons.mp hr' with rfl | hmem
      · exact absurd (congrArg some hname.symm) hr
      · exact ⟨r', hmem, hname⟩

theorem resolveState_ctx_independent_of_target (l : List DialogueStateRule)
    (ctx ctx2 : Context) (t : String) (ht : t ≠ "") :
    resolveState l ctx (some t) = resolveState l ctx2 (some t) := by
  induction l with
  | nil => rfl
  | cons r rest ih =>
    have htr : pyTruthyOptStr (some t) = true := by simp [pyTruthyOptStr, ht]
    simp [resolveState, htr, ih]

theorem resolveState_target_missing (l : List DialogueStateRule) (ctx : Context)
    (t : String) (ht : t ≠ "") (h : ∀ r ∈ l, r.dialogue_state ≠ t) :
    resolveState l ctx (some t) = Option.none := by
  induction l with
  | nil => rfl
  | cons r rest ih =>
    have htr : pyTruthyOptStr (some t) = true := by simp [pyTruthyOptStr, ht]
    have hne : ¬(some t = some r.dialogue_state) := by
      simp
      exact fun he => h r (List.mem_cons_self r rest) he.symm
    simp only [resolveState, htr, if_pos rfl, if_neg hne]
    exact ih (fun r' hr' => h r' (List.mem_cons_of_mem r hr'))

/-! ## Theorems for the claims -/

/-- **C2.** Rule matching on entity types is a subset test: when
`entityTypes` is set, `apply` succeeds only if every required type occurs
among the context's entity types; with only the entity constraint the
match is exactly the subset test (extra context types allowed, equality
not required); a rule with no constraints matches every context. -/
theorem C2_matching_is_subset_test (r : DialogueStateRule) (ctx : Context)
    (ets : Finset String) :
    (r.entity_types = some ets → r.apply ctx = true → ets ⊆ contextEntityTypes ctx)
    ∧ (r.domain = Option.none → r.intent = Option.none → r.entity_types = some ets →
        (r.apply ctx = true ↔ ets ⊆ contextEntityTypes ctx))
    ∧ (r.domain = Option.none → r.intent = Option.none → r.entity_types = Option.none →
        r.apply ctx = true) := by
  refine ⟨?_, ?_, ?_⟩
  · intro het happ
    simp only [DialogueStateRule.apply, het] at happ
    split at happ
    · exact absurd happ (by simp)
    · split at happ
      · exact absurd happ (by simp)
      · by_cases hlt : (ets ∩ contextEntityTypes ctx).card < ets.card
        · simp [hlt] at happ
        · exact (inter_card_not_lt_iff ets (contextEntityTypes ctx)).mp hlt
  · intro hd hi het
    simp only [DialogueStateRule.apply, hd, hi, het, Option.isSome_none,
      Bool.false_and, Bool.false_eq_true, if_false]
    by_cases hlt : (ets ∩ contextEntityTypes ctx).card < ets.card
    · simp only [if_pos hlt, Bool.false_eq_true, false_iff]
      intro hsub
      exact absurd hlt ((inter_card_not_lt_iff ets (contextEntityTypes ctx)).mpr hsub)
    · simp only [if_neg hlt, true_iff]
      exact (inter_card_not_lt_iff ets (contextEntityTypes ctx)).mp hlt
  · intro hd hi het
    simp [DialogueStateRule.apply, hd, hi, het]

/-- Witness for C2 on a concrete rule and context: the context
`{A, B, C}` matches the rule requiring `{A, B}`, so the requirement is a
subset of the context's types. -/
theorem C2_matching_is_subset_test_witness :
    ({"A", "B"} : Finset String) ⊆ contextEntityTypes c2Ctx :=
  (C2_matching_is_subset_test c2Rule c2Ctx {"A", "B"}).1 rfl (by decide)

/-- **C10.** A rule registered with a null handler is resolvable but not
dispatchable: whenever resolution produces a state whose name is absent
from the handler map, `apply_handler` hits the unguarded
`self.handler_map[dialogue_state]` lookup and raises `KeyError` instead of
returning an action log. -/
theorem C10_null_handler_dispatch_key_error (m : DialogueManager) (ctx : Context)
    (target : Option String) (run : Handler → Context → List PyVal) (s : String)
    (hres : resolveState m.rules ctx target = some s)
    (hmap : m.lookupHandler s = Option.none) :
    m.apply_handler ctx target run = .error PyErr.keyError := by
  simp [DialogueManager.apply_handler, hres, hmap]

/-- Witness for C10: registering `st` rule-only (null handler) yields
`c10Mgr`; dispatching a context its rule matches raises `KeyError`. -/
theorem C10_null_handler_dispatch_key_error_witness :
    DialogueManager.empty.add_dialogue_rule "st" Option.none Option.none Option.none
        Option.none = .ok c10Mgr
    ∧ c10Mgr.apply_handler c10Ctx Option.none (fun _ _ => []) = .error PyErr.keyError :=
  ⟨rfl, C10_null_handler_dispatch_key_error c10Mgr c10Ctx Option.none (fun _ _ => []) "st"
    rfl rfl⟩

/-- **C3.** Forced-state bypass: with a (truthy) `targetState`, if some
registered rule bears that name, the scan returns it for every context —
without evaluating any predicate (the result does not depend on the
context at all); if no registered rule bears the name, resolution yields
no state and the default no-op handler runs, producing an empty action
log. -/
theorem C3_forced_state_bypass (m : DialogueManager) (ctx ctx2 : Context) (t : String)
    (run : Handler → Context → List PyVal) (ht : t ≠ "") :
    ((∃ r ∈ m.rules, r.dialogue_state = t) →
      resolveState m.rules ctx (some t) = some t)
    ∧ resolveState m.rules ctx (some t) = resolveState m.rules ctx2 (some t)
    ∧ ((∀ r ∈ m.rules, r.dialogue_state ≠ t) →
        m.apply_handler ctx (some t) run = .ok ⟨Option.none, []⟩) := by
  refine ⟨fun h => resolveState_target_found m.rules ctx t ht h,
    resolveState_ctx_independent_of_target m.rules ctx ctx2 t ht, fun h => ?_⟩
  rw [DialogueManager.apply_handler, resolveState_target_missing m.rules ctx t ht h]

/-- Witness for C3: the only rule is named `X` but its domain constraint
fails against `c3Ctx`; resolution with target `X` still returns `X`, and
with target `Y` (no such rule) dispatch falls through to the default
handler. -/
theorem C3_forced_state_bypass_witness :
    resolveState c3Mgr.rules c3Ctx (some "X") = some "X"
    ∧ c3Rule.apply c3Ctx = false
    ∧ c3Mgr.apply_handler c3Ctx (some "Y") (fun _ _ => []) = .ok ⟨Option.none, []⟩ :=
  ⟨(C3_forced_state_bypass c3Mgr c3Ctx c3Ctx "X" (fun _ _ => []) (by decide)).1
      ⟨c3Rule, by simp [c3Mgr], rfl⟩,
   by decide,
   (C3_forced_state_bypass c3Mgr c3Ctx c3Ctx "Y" (fun _ _ => []) (by decide)).2.2
      (by intro r hr; simp [c3Mgr] at hr; rw [hr]; exact fun hc => by simp [c3Rule] at hc)⟩

/-- **C4.** Registration conflict handling: with a non-null handler,
`add_dialogue_rule` fails exactly when a *different* handler is already
bound to the name (so re-registering the identical handler succeeds);
registering with a null handler always succeeds and binds no handler. -/
theorem C4_registration_conflict (m : DialogueManager) (name : String) (h : Handler)
    (d i : Option String) (e : Option (Finset String)) :
    ((∃ msg, m.add_dialogue_rule name (some h) d i e = .error msg) ↔
      (∃ old, m.lookupHandler name = some old ∧ old ≠ h))
    ∧ (∃ m', m.add_dialogue_rule name Option.none d i e = .ok m'
        ∧ m'.handler_map = m.handler_map) := by
  constructor
  · rw [DialogueManager.add_dialogue_rule]
    cases hl : m.lookupHandler name with
    | none =>
      simp only [hl]
      constructor
      · rintro ⟨msg, hmsg⟩
        exact absurd hmsg (by simp)
      · rintro ⟨old, hold, _⟩
        exact absurd hold (by simp)
    | some old =>
      simp only [hl]
      by_cases hne : old ≠ h
      · rw [if_pos hne]
        exact ⟨fun _ => ⟨old, rfl, hne⟩, fun _ => ⟨_, rfl⟩⟩
      · rw [if_neg hne]
        constructor
        · rintro ⟨msg, hmsg⟩
          exact absurd hmsg (by simp)
        · rintro ⟨old', hold', hne'⟩
          exact absurd hne' (by simp_all)
  · exact ⟨_, rfl, rfl⟩

/-- Witness for C4: `c4Mgr` already binds handler `1` to `greet`, so
registering handler `2` under `greet` fails with the conflict error. -/
theorem C4_registration_conflict_witness :
    ∃ msg, c4Mgr.add_dialogue_rule "greet" (some 2) Option.none Option.none Option.none
      = .error msg :=
  (C4_registration_conflict c4Mgr "greet" 2 Option.none Option.none Option.none).1.mpr
    ⟨1, rfl, by decide⟩

theorem complexity_entity_slot (r : DialogueStateRule) :
    r.complexity.2.2 = entityTypeCount r := by
  unfold DialogueStateRule.complexity entityTypeCount
  cases r.entity_types with
  | none => rfl
  | some ets =>
    by_cases h : ets = ∅
    · simp [h]
    · simp [h]

theorem compare_of_entity_count_ne (a b : DialogueStateRule)
    (h : a.complexity.2.2 ≠ b.complexity.2.2) :
    DialogueStateRule.compare a b = (a.complexity.2.2 : Int) - b.complexity.2.2 := by
  simp [DialogueStateRule.compare, h]

theorem add_rule_only_ok (m : DialogueManager) (name : String) (d i : Option String)
    (e : Option (Finset String)) :
    m.add_dialogue_rule name Option.none d i e
      = .ok ⟨m.handler_map, sortRules (m.rules ++ [⟨name, d, i, e⟩])⟩ := rfl

/-- **C1.** `DialogueStateRule.compare` is lexicographic starting from the
entity-type count, then the intent flag, then the domain flag: it is
positive iff the first rule's `(entityTypeCount, intentFlag, domainFlag)`
triple is lexicographically greater, and zero iff the triples are equal.
Consequently, registering two rules that differ only in their entity-type
counts `a > b` — in either order — yields a registry that resolves a
context matching both to the rule with count `a`. -/
theorem C1_compare_lexicographic_and_resolution (r1 r2 ra rb : DialogueStateRule)
    (ctx : Context) (m1 m2 m1' m2' : DialogueManager)
    (hdom : ra.domain = rb.domain) (hint : ra.intent = rb.intent)
    (hcount : entityTypeCount rb < entityTypeCount ra)
    (hra : ra.apply ctx = true) (hrb : rb.apply ctx = true)
    (hreg1 : DialogueManager.empty.add_dialogue_rule ra.dialogue_state Option.none
      ra.domain ra.intent ra.entity_types = .ok m1)
    (hreg2 : m1.add_dialogue_rule rb.dialogue_state Option.none
      rb.domain rb.intent rb.entity_types = .ok m2)
    (hreg1' : DialogueManager.empty.add_dialogue_rule rb.dialogue_state Option.none
      rb.domain rb.intent rb.entity_types = .ok m1')
    (hreg2' : m1'.add_dialogue_rule ra.dialogue_state Option.none
      ra.domain ra.intent ra.entity_types = .ok m2') :
    (0 < DialogueStateRule.compare r1 r2 ↔
      lexGtTriple (priorityTriple r1) (priorityTriple r2))
    ∧ (DialogueStateRule.compare r1 r2 = 0 ↔ priorityTriple r1 = priorityTriple r2)
    ∧ resolveState m2.rules ctx Option.none = some ra.dialogue_state
    ∧ resolveState m2'.rules ctx Option.none = some ra.dialogue_state := by
  have hne : ra.complexity.2.2 ≠ rb.complexity.2.2 := by
    rw [complexity_entity_slot, complexity_entity_slot]
    omega
  have hpos : 0 < DialogueStateRule.compare ra rb := by
    rw [compare_of_entity_count_ne ra rb hne, complexity_entity_slot,
      complexity_entity_slot]
    omega
  have hneg : DialogueStateRule.compare rb ra < 0 := by
    rw [compare_of_entity_count_ne rb ra (Ne.symm hne), complexity_entity_slot,
      complexity_entity_slot]
    omega
  have hsorted : sortRules [ra, rb] = [ra, rb] := by
    show insertRuleSorted (insertRuleSorted [] ra) rb = [ra, rb]
    show insertRuleSorted [ra] rb = [ra, rb]
    simp only [insertRuleSorted]
    rw [if_pos (le_of_lt hpos)]
  have hsorted' : sortRules [rb, ra] = [ra, rb] := by
    show insertRuleSorted (insertRuleSorted [] rb) ra = [ra, rb]
    show insertRuleSorted [rb] ra = [ra, rb]
    simp only [insertRuleSorted]
    rw [if_neg (not_le.mpr hneg)]
  have hres : resolveState [ra, rb] ctx Option.none = some ra.dialogue_state := by
    simp [resolveState, pyTruthyOptStr, hra]
  have e1 : m1 = ⟨[], sortRules ([] ++ [⟨ra.dialogue_state, ra.domain, ra.intent,
      ra.entity_types⟩])⟩ :=
    (Except.ok.inj ((add_rule_only_ok _ _ _ _ _).symm.trans hreg1)).symm
  have e1' : m1' = ⟨[], sortRules ([] ++ [⟨rb.dialogue_state, rb.domain, rb.intent,
      rb.entity_types⟩])⟩ :=
    (Except.ok.inj ((add_rule_only_ok _ _ _ _ _).symm.trans hreg1')).symm
  subst e1 e1'
  have e2 : m2 = ⟨[], sortRules ([ra] ++ [rb])⟩ :=
    (Except.ok.inj ((add_rule_only_ok _ _ _ _ _).symm.trans hreg2)).symm
  have e2' : m2' = ⟨[], sortRules ([rb] ++ [ra])⟩ :=
    (Except.ok.inj ((add_rule_only_ok _ _ _ _ _).symm.trans hreg2')).symm
  refine ⟨?_, ?_, ?_, ?_⟩
  · simp only [DialogueStateRule.compare, priorityTriple, lexGtTriple]
    split_ifs <;> omega
  · simp only [DialogueStateRule.compare, priorityTriple, Prod.mk.injEq]
    split_ifs <;> omega
  · rw [e2]
    show resolveState (sortRules [ra, rb]) ctx Option.none = some ra.dialogue_state
    rw [hsorted]
    exact hres
  · rw [e2']
    show resolveState (sortRules [rb, ra]) ctx Option.none = some ra.dialogue_state
    rw [hsorted']
    exact hres

/-- Witness for C1: `c1RuleA` (two entity types) and `c1RuleB` (one entity
type) registered in either order resolve `c1Ctx` (which matches both) to
`two_entities`; and `compare c1RuleA c1RuleB` is positive as the triples
are lexicographically ordered. -/
theorem C1_compare_lexicographic_and_resolution_witness :
    resolveState (DialogueManager.mk [] [c1RuleA, c1RuleB]).rules c1Ctx Option.none
        = some "two_entities"
    ∧ (0 < DialogueStateRule.compare c1RuleA c1RuleB ↔
        lexGtTriple (priorityTriple c1RuleA) (priorityTriple c1RuleB)) := by
  have h := C1_compare_lexicographic_and_resolution c1RuleA c1RuleB c1RuleA c1RuleB
    c1Ctx ⟨[], [c1RuleA]⟩ ⟨[], [c1RuleA, c1RuleB]⟩ ⟨[], [c1RuleB]⟩
    ⟨[], [c1RuleA, c1RuleB]⟩ rfl rfl (by decide) (by decide) (by decide)
    rfl rfl rfl rfl
  exact ⟨h.2.2.1, h.1⟩

/-- **C5, counterexample.** The claim predicts that after `say` the
driver's history equals the *response's* history with the post-extraction
response prepended.  On `c5St` (one past turn in the driver history) and
`c5Resp` (empty response history) the code instead keeps the driver's old
history: the result has two elements, the claimed value one. -/
theorem C5_history_claim_counterexample :
    ¬ ((Conversation.say c5St c5Resp).1.history = storedOf c5Resp :: c5Resp.history) := by
  intro h
  have hlen := congrArg List.length h
  simp [Conversation.say, c5St, c5Resp, storedOf] at hlen

/-- **C5, amended.** `response.pop('history')` discards the popped value:
for every call to `say`, the driver's history after the call equals the
driver's *previous* history with the post-extraction response (the
response with its `history`, `allowed_intents` and `target_dialog_state`
fields removed) prepended as the newest element; the response's own
history sequence is discarded. -/
theorem C5_history_prepends_to_old_history (st : Conversation) (resp : PipelineResponse) :
    (Conversation.say st resp).1.history = storedOf resp :: st.history := rfl

/-- **C6, counterexample.** The claim predicts that an `allowed_intents`
value that is not a sequence is always cleared.  The pipeline value `0`
(not a sequence) is falsy, so the truthiness guard skips the `isinstance`
check and the driver keeps `0`. -/
theorem C6_validation_claim_counterexample :
    ¬ ((Conversation.say c6St c6Resp).1.allowed_intents =
        (if (PyVal.int 0).isList then PyVal.int 0 else PyVal.none)) := by
  intro h
  exact PyVal.noConfusion h

theorem guard_list_sound (v : PyVal) :
    (if v.truthy && !v.isList then PyVal.none else v).truthy = true →
    (if v.truthy && !v.isList then PyVal.none else v).isList = true := by
  cases v with
  | none => simp [PyVal.truthy, PyVal.isList]
  | bool b => cases b <;> simp [PyVal.truthy, PyVal.isList]
  | int n => by_cases h : n = 0 <;> simp [PyVal.truthy, PyVal.isList, h]
  | str s => by_cases h : s = "" <;> simp [PyVal.truthy, PyVal.isList, h]
  | list xs => simp [PyVal.truthy, PyVal.isList]
  | dict es => by_cases h : es.isEmpty <;> simp [PyVal.truthy, PyVal.isList, h]

theorem guard_str_sound (w : PyVal) :
    (if w.truthy && !w.isStr then PyVal.none else w).truthy = true →
    (if w.truthy && !w.isStr then PyVal.none else w).isStr = true := by
  cases w with
  | none => simp [PyVal.truthy, PyVal.isStr]
  | bool b => cases b <;> simp [PyVal.truthy, PyVal.isStr]
  | int n => by_cases h : n = 0 <;> simp [PyVal.truthy, PyVal.isStr, h]
  | str s => by_cases h : s = "" <;> simp [PyVal.truthy, PyVal.isStr, h]
  | list xs => by_cases h : xs.isEmpty <;> simp [PyVal.truthy, PyVal.isStr, h]
  | dict es => by_cases h : es.isEmpty <;> simp [PyVal.truthy, PyVal.isStr, h]

/-- **C6, amended.** The driver clears `allowed_intents` exactly when it
is truthy and not a list, and `target_dialog_state` exactly when it is
truthy and not a string; falsy values (such as the number `0`) are kept
as-is.  In particular every *truthy* kept `allowed_intents` is a list and
every truthy kept `target_dialog_state` is a string. -/
theorem C6_soft_validation_truthy_guard (st : Conversation) (resp : PipelineResponse) :
    ((Conversation.say st resp).1.allowed_intents =
      (let v := resp.allowed_intents.getD PyVal.none
       if v.truthy && !v.isList then PyVal.none else v))
    ∧ ((Conversation.say st resp).1.target_dialog_state =
      (let w := resp.target_dialog_state.getD PyVal.none
       if w.truthy && !w.isStr then PyVal.none else w))
    ∧ ((Conversation.say st resp).1.allowed_intents.truthy = true →
        (Conversation.say st resp).1.allowed_intents.isList = true)
    ∧ ((Conversation.say st resp).1.target_dialog_state.truthy = true →
        (Conversation.say st resp).1.target_dialog_state.isStr = true) := by
  exact ⟨rfl, rfl, guard_list_sound (resp.allowed_intents.getD PyVal.none),
    guard_str_sound (resp.target_dialog_state.getD PyVal.none)⟩

/-- Witness for C6: a pipeline turn returning a non-empty list of allowed
intents keeps it, and the kept truthy value is indeed a list. -/
theorem C6_soft_validation_truthy_guard_witness :
    (Conversation.say c6St c6WResp).1.allowed_intents.isList = true :=
  (C6_soft_validation_truthy_guard c6St c6WResp).2.2.1 rfl

/-- **C9, counterexample.** The claim says calling `show` with no argument
succeeds and appends one `show-collection` action; but the source declares
`def show(self, things):` with no default, so the no-argument call raises
`TypeError` and no action is appended. -/
theorem C9_show_no_argument_counterexample :
    ¬ (∃ r', c9Responder.showWithNoArgument = Except.ok r'
        ∧ r'.client_actions = [PyVal.dict
            [("name", PyVal.str SHOW_COLLECTION), ("message", PyVal.list [])]]) := by
  rintro ⟨r', hr', _⟩
  exact Except.noConfusion hr'

/-- **C9, amended.** `show([])` and `show(None)` both succeed and append
exactly one `show-collection` action whose payload is an empty sequence
(slots untouched); calling `show` with no argument raises `TypeError`
because the parameter has no default. -/
theorem C9_show_empty_collection (r : DialogueResponder) :
    (r.show (PyVal.list [])).client_actions
      = r.client_actions ++ [PyVal.dict
          [("name", PyVal.str SHOW_COLLECTION), ("message", PyVal.list [])]]
    ∧ (r.show PyVal.none).client_actions
      = r.client_actions ++ [PyVal.dict
          [("name", PyVal.str SHOW_COLLECTION), ("message", PyVal.list [])]]
    ∧ (r.show (PyVal.list [])).slots = r.slots
    ∧ r.showWithNoArgument = Except.error PyErr.typeError :=
  ⟨rfl, rfl, rfl, rfl⟩

theorem handle_client_action_error_eq (a : PyVal) (e : PyErr)
    (h : handle_client_action a = .error e) : e = .typeError := by
  unfold handle_client_action at h
  cases hc : handle_client_action_core a with
  | ok v =>
    rw [hc] at h
    exact Except.noConfusion h
  | error err =>
    rw [hc] at h
    cases err with
    | keyError => exact Except.noConfusion h
    | valueError => exact Except.noConfusion h
    | attributeError => exact Except.noConfusion h
    | typeError => exact (Except.error.inj h).symm

theorem handle_ok_not_type_error (a v : PyVal) (hv : handle_client_action a = .ok v) :
    handle_client_action a ≠ Except.error PyErr.typeError := by
  rw [hv]
  exact fun hc => Except.noConfusion hc

/-- **C7, counterexample.** The claim says a mistyped action field still
renders to a fallback string with no exception; but `c7BadAction`
(`show-reply` with an integer `message`) makes
`action['message']['text']` raise `TypeError`, which the
`except (KeyError, ValueError, AttributeError)` clause does not catch, so
the whole turn's rendering raises and produces no output list. -/
theorem C7_rendering_total_counterexample :
    ¬ ∃ out, renderClientActions [c7BadAction] = Except.ok out := by
  rintro ⟨out, hout⟩
  rw [show renderClientActions [c7BadAction] = Except.error PyErr.typeError from rfl] at hout
  exact Except.noConfusion hout

/-- **C7, amended.** Rendering failures raised as `KeyError`, `ValueError`
or `AttributeError` (missing fields, empty suggestion lists) are local:
they render to the diagnostic fallback string and the remaining actions of
the turn are still rendered, one output per action in action order.  An
action with an unrecognized `name` renders to the empty string (not the
fallback).  Only a mistyped field access, which raises `TypeError`, aborts
the rendering of the turn. -/
theorem C7_rendering_local_without_type_error (acts : List PyVal)
    (h : ∀ a ∈ acts, handle_client_action a ≠ Except.error PyErr.typeError) :
    renderClientActions acts = .ok (acts.map renderedAction)
    ∧ (acts.map renderedAction).length = acts.length
    ∧ handle_client_action (PyVal.dict [("name", PyVal.str "mystery-action")])
        = .ok (.str "") := by
  refine ⟨?_, by simp, rfl⟩
  induction acts with
  | nil => rfl
  | cons a rest ih =>
    have ha := h a (List.mem_cons_self a rest)
    have hrest := ih (fun a' ha' => h a' (List.mem_cons_of_mem a ha'))
    cases hc : handle_client_action a with
    | error e =>
      have he : e = .typeError := handle_client_action_error_eq a e hc
      subst he
      exact absurd hc ha
    | ok v =>
      simp only [renderClientActions, hc, hrest, List.map_cons, renderedAction]

/-- Witness for C7: a well-formed reply action followed by an action with
no `name` key (caught `KeyError`) renders to two strings — the reply text
and the fallback — in order. -/
theorem C7_rendering_local_without_type_error_witness :
    renderClientActions [c7ReplyAction, c7NoNameAction]
      = .ok ([c7ReplyAction, c7NoNameAction].map renderedAction) := by
  refine (C7_rendering_local_without_type_error [c7ReplyAction, c7NoNameAction] ?_).1
  intro a ha
  rcases List.mem_cons.mp ha with rfl | ha'
  · exact handle_ok_not_type_error _ (PyVal.str "hi") rfl
  · rcases List.mem_cons.mp ha' with rfl | h0
    · exact handle_ok_not_type_error _
        (PyVal.str ("Unsupported response: " ++ pyRepr c7NoNameAction)) rfl
    · simp at h0

theorem generate_suggestion_text_mk (t ty : String) :
    generate_suggestion_text (mkSuggestion t ty) = .ok (suggestionDescription (t, ty)) := by
  by_cases h : ty = "text"
  · subst h
    rfl
  · have hbne : (ty != "text") = true := by simp [h]
    have hstep : generate_suggestion_text (mkSuggestion t ty)
        = joinStrPieces (if ty != "text" then [PyVal.str t, PyVal.str ("(" ++ ty ++ ")")]
            else [PyVal.str t]) := rfl
    rw [hstep, if_pos hbne]
    have hjoin : joinStrPieces [PyVal.str t, PyVal.str ("(" ++ ty ++ ")")]
        = .ok (t ++ " " ++ ("(" ++ ty ++ ")")) := rfl
    rw [hjoin]
    simp only [suggestionDescription, if_neg h]
    simp only [String.append_assoc]

theorem suggestionLoop_cons_mk (t ty : String) (l : List PyVal) (idx : Nat) :
    suggestionLoop (mkSuggestion t ty :: l) idx
      = match suggestionLoop l (idx + 1) with
        | .error e => .error e
        | .ok tail => .ok ((if 0 < idx then ", " else " ")
            ++ pyReprStr (suggestionDescription (t, ty)) ++ tail) := by
  simp only [suggestionLoop]
  rw [generate_suggestion_text_mk]

theorem suggestionLoop_mapped (l : List (String × String)) (idx : Nat) (h : 0 < idx) :
    suggestionLoop (l.map fun q => mkSuggestion q.1 q.2) idx
      = .ok (joinStrings (l.map fun q => ", " ++ pyReprStr (suggestionDescription q))) := by
  induction l generalizing idx with
  | nil => rfl
  | cons q qs ih =>
    simp only [List.map_cons]
    rw [suggestionLoop_cons_mk q.1 q.2]
    rw [ih (idx + 1) (Nat.succ_pos idx)]
    simp only [joinStrings]
    rw [if_pos h]

/-- **C8.** Rendering a `show-suggestions` action with a non-empty payload
of well-formed suggestions yields the header `Suggestion:` (exactly one
suggestion) or `Suggestions:` (otherwise) followed by the comma-separated
repr-quoted descriptions, where a description is the suggestion's text
with ` (type)` appended exactly when the type is not `"text"`; the two
concrete examples of the specification render as stated; and an empty
suggestion list falls into the generic fallback. -/
theorem C8_suggestions_rendering (p : String × String) (rest : List (String × String)) :
    handle_client_action (suggestionsAction ((p :: rest).map fun q => mkSuggestion q.1 q.2))
      = .ok (.str ("Suggestion" ++ (if rest.isEmpty then "" else "s") ++ ":"
          ++ (" " ++ pyReprStr (suggestionDescription p)
              ++ joinStrings (rest.map fun q => ", " ++ pyReprStr (suggestionDescription q)))))
    ∧ handle_client_action (suggestionsAction [mkSuggestion "Coffee" "drink"])
        = .ok (.str "Suggestion: 'Coffee (drink)'")
    ∧ handle_client_action (suggestionsAction
          [mkSuggestion "Coffee" "drink", mkSuggestion "Tea" "text"])
        = .ok (.str "Suggestions: 'Coffee (drink)', 'Tea'")
    ∧ handle_client_action (suggestionsAction [])
        = .ok (.str ("Unsupported response: " ++ pyRepr (suggestionsAction []))) := by
  refine ⟨?_, by rfl, by rfl, by rfl⟩
  have hloop : suggestionLoop ((p :: rest).map fun q => mkSuggestion q.1 q.2) 0
      = .ok (" " ++ pyReprStr (suggestionDescription p)
          ++ joinStrings (rest.map fun q => ", " ++ pyReprStr (suggestionDescription q))) := by
    simp only [List.map_cons]
    rw [suggestionLoop_cons_mk p.1 p.2]
    rw [suggestionLoop_mapped rest (0 + 1) (Nat.succ_pos 0)]
    rfl
  have hlen : ((((p :: rest).map fun q : String × String => mkSuggestion q.1 q.2).length == 1)
        : Bool) = rest.isEmpty := by
    cases rest <;> simp
  have hcore : handle_client_action_core
      (suggestionsAction ((p :: rest).map fun q => mkSuggestion q.1 q.2))
      = .ok (.str ("Suggestion" ++ (if rest.isEmpty then "" else "s") ++ ":"
          ++ (" " ++ pyReprStr (suggestionDescription p)
              ++ joinStrings (rest.map fun q => ", " ++ pyReprStr (suggestionDescription q))))) := by
    show (match suggestionLoop ((p :: rest).map fun q : String × String =>
            mkSuggestion q.1 q.2) 0 with
          | .error e => (.error e : Except PyErr PyVal)
          | .ok body => .ok (.str ("Suggestion"
              ++ (if (((p :: rest).map fun q : String × String =>
                      mkSuggestion q.1 q.2).length == 1) then ""
                  else "s") ++ ":" ++ body))) = _
    rw [hloop, hlen]
  unfold handle_client_action
  rw [hcore]
